import Mathlib

/- Shallow embedding of the pldm repository's firmware-update device state
machine (src/fw-update/device_updater.cpp, class DeviceUpdater) and of the
state-sensor event bridge (src/unnamed/part_000, class DbusToPLDMEvent),
together with theorems settling the frozen claims about them.

Machine integers are modelled as Nat; the places where the C++ performs
32-bit unsigned arithmetic (sums of uint32 operands) carry an explicit
mod 2^32. -/

namespace PldmModel

/- PLDM wire constants, values as in libpldm (DSP0240 / DSP0248 / DSP0267). -/

def PLDM_SUCCESS : Nat := 0x00

def PLDM_FWUP_BASELINE_TRANSFER_SIZE : Nat := 32

def PLDM_FWUP_DATA_OUT_OF_RANGE : Nat := 0x82

def PLDM_FWUP_INVALID_TRANSFER_LENGTH : Nat := 0x83

def PLDM_START : Nat := 0x01

def PLDM_MIDDLE : Nat := 0x02

def PLDM_END : Nat := 0x04

def PLDM_START_AND_END : Nat := 0x05

def PLDM_FWUP_TRANSFER_SUCCESS : Nat := 0x00

def PLDM_FWUP_VERIFY_SUCCESS : Nat := 0x00

def PLDM_FWUP_APPLY_SUCCESS : Nat := 0x00

def PLDM_FWUP_APPLY_SUCCESS_WITH_ACTIVATION_METHOD : Nat := 0x01

def PLDM_REQUEST_UPDATE : Nat := 0x10

def PLDM_PASS_COMPONENT_TABLE : Nat := 0x13

def PLDM_UPDATE_COMPONENT : Nat := 0x14

def PLDM_ACTIVATE_FIRMWARE : Nat := 0x1a

def PLDM_CANCEL_UPDATE_COMPONENT : Nat := 0x1c

def PLDM_PLATFORM_EVENT_MESSAGE : Nat := 0x0a

def PLDM_SENSOR_UNKNOWN : Nat := 0xff

/-- Modulus of the 32-bit unsigned arithmetic the C++ source performs on
uint32_t operands (offset, length, compSize, compOffset, maxTransferSize). -/
def UINT32_MOD : Nat := 4294967296

/- ------------------------------------------------------------------ -/
/- DeviceUpdater::requestFwData (device_updater.cpp lines 407-515).    -/
/- ------------------------------------------------------------------ -/

/-- Response of requestFwData: the completion code and the payload bytes that
follow it (empty on the error paths, where the response buffer keeps its
initial header+completion-code size). -/
structure FwDataResponse where
  completionCode : Nat
  payload : List Nat
deriving DecidableEq, Repr

/-- DeviceUpdater::requestFwData after a successful decode of the
RequestFirmwareData request (lines 434-515).  The package file is modelled,
per the spec's external-interface assumption, as a random-access byte source
(a total function from byte position to byte value).  offset, length,
compOffset, compSize and maxTransferSize are uint32 values, so the sums
offset+length, compSize+BASELINE and compOffset+offset wrap mod 2^32, which
the model makes explicit.  The response buffer is allocated zero-filled and
the read fills its first length-padBytes bytes (lines 469-481). -/
def requestFwData (maxTransferSize compOffset compSize : Nat)
    (package : Nat → Nat) (offset length : Nat) : FwDataResponse :=
  if length < PLDM_FWUP_BASELINE_TRANSFER_SIZE ∨ maxTransferSize < length then
    { completionCode := PLDM_FWUP_INVALID_TRANSFER_LENGTH, payload := [] }
  else if (compSize + PLDM_FWUP_BASELINE_TRANSFER_SIZE) % UINT32_MOD <
      (offset + length) % UINT32_MOD then
    { completionCode := PLDM_FWUP_DATA_OUT_OF_RANGE, payload := [] }
  else
    let padBytes : Nat :=
      if compSize < (offset + length) % UINT32_MOD then
        (offset + length) % UINT32_MOD - compSize
      else 0
    { completionCode := PLDM_SUCCESS,
      payload := (List.range length).map (fun i =>
        if i < length - padBytes then
          package ((compOffset + offset) % UINT32_MOD + i)
        else 0) }

/-- Claim C7 (confirmed; the boundary acceptances presuppose that the
configured maxTransferSize is at least the 32-byte baseline): for every
decoded RequestFirmwareData(offset, length), the responder replies
FWUP_INVALID_TRANSFER_LENGTH with no payload exactly when length < 32 or
length > maxTransferSize; length = 32 and length = maxTransferSize pass the
length check, while length = 31 and length = maxTransferSize + 1 are
rejected. -/
theorem requestFwData_invalid_transfer_length_iff
    (mts compOffset compSize : Nat) (package : Nat → Nat) (offset length : Nat)
    (hmts : PLDM_FWUP_BASELINE_TRANSFER_SIZE ≤ mts) :
    (((requestFwData mts compOffset compSize package offset length).completionCode =
          PLDM_FWUP_INVALID_TRANSFER_LENGTH ∧
        (requestFwData mts compOffset compSize package offset length).payload = []) ↔
      (length < PLDM_FWUP_BASELINE_TRANSFER_SIZE ∨ mts < length)) ∧
    (requestFwData mts compOffset compSize package offset
        PLDM_FWUP_BASELINE_TRANSFER_SIZE).completionCode ≠
      PLDM_FWUP_INVALID_TRANSFER_LENGTH ∧
    (requestFwData mts compOffset compSize package offset mts).completionCode ≠
      PLDM_FWUP_INVALID_TRANSFER_LENGTH ∧
    (requestFwData mts compOffset compSize package offset
        (PLDM_FWUP_BASELINE_TRANSFER_SIZE - 1)).completionCode =
      PLDM_FWUP_INVALID_TRANSFER_LENGTH ∧
    (requestFwData mts compOffset compSize package offset
        (mts + 1)).completionCode =
      PLDM_FWUP_INVALID_TRANSFER_LENGTH := by
  unfold requestFwData PLDM_FWUP_BASELINE_TRANSFER_SIZE
    PLDM_FWUP_INVALID_TRANSFER_LENGTH PLDM_FWUP_DATA_OUT_OF_RANGE
    PLDM_SUCCESS at *
  refine ⟨?_, ?_, ?_, ?_, ?_⟩ <;> split_ifs <;> simp_all <;> omega

/-- Witness for claim C7 at mts = 64, compSize = 64, offset = 0,
length = 48. -/
theorem requestFwData_invalid_transfer_length_iff_witness :
    (((requestFwData 64 0 64 (fun _ => 7) 0 48).completionCode =
          PLDM_FWUP_INVALID_TRANSFER_LENGTH ∧
        (requestFwData 64 0 64 (fun _ => 7) 0 48).payload = []) ↔
      (48 < PLDM_FWUP_BASELINE_TRANSFER_SIZE ∨ 64 < 48)) ∧
    (requestFwData 64 0 64 (fun _ => 7) 0
        PLDM_FWUP_BASELINE_TRANSFER_SIZE).completionCode ≠
      PLDM_FWUP_INVALID_TRANSFER_LENGTH ∧
    (requestFwData 64 0 64 (fun _ => 7) 0 64).completionCode ≠
      PLDM_FWUP_INVALID_TRANSFER_LENGTH ∧
    (requestFwData 64 0 64 (fun _ => 7) 0
        (PLDM_FWUP_BASELINE_TRANSFER_SIZE - 1)).completionCode =
      PLDM_FWUP_INVALID_TRANSFER_LENGTH ∧
    (requestFwData 64 0 64 (fun _ => 7) 0 (64 + 1)).completionCode =
      PLDM_FWUP_INVALID_TRANSFER_LENGTH :=
  requestFwData_invalid_transfer_length_iff 64 0 64 (fun _ => 7) 0 48
    (by decide)

/-- Claim C6 counterexample: with maxTransferSize = 64, compSize = 64,
compOffset = 64, offset = 2^32 - 32 and length = 32, the exact-integer sum
offset + length (= 2^32) exceeds compSize + BASELINE (= 96), so the claim
demands FWUP_DATA_OUT_OF_RANGE; but the source computes offset + length in
32-bit arithmetic, where the sum wraps to 0, and the request is served with
SUCCESS. -/
theorem requestFwData_out_of_range_exact_counterexample :
    64 + PLDM_FWUP_BASELINE_TRANSFER_SIZE < 4294967264 + 32 ∧
    (requestFwData 64 64 64 (fun _ => 7) 4294967264 32).completionCode =
      PLDM_SUCCESS ∧
    (requestFwData 64 64 64 (fun _ => 7) 4294967264 32).completionCode ≠
      PLDM_FWUP_DATA_OUT_OF_RANGE := by decide

/-- Claim C6 amended: the responder replies FWUP_DATA_OUT_OF_RANGE exactly
when (offset + length) mod 2^32 > (compSize + BASELINE) mod 2^32; whenever
neither 32-bit sum wraps, this coincides with the exact-integer condition
offset + length > compSize + BASELINE, and the boundary case
offset + length = compSize + BASELINE is accepted with SUCCESS. -/
theorem requestFwData_out_of_range_iff
    (mts compOffset compSize : Nat) (package : Nat → Nat) (offset length : Nat)
    (hlo : PLDM_FWUP_BASELINE_TRANSFER_SIZE ≤ length) (hhi : length ≤ mts) :
    ((requestFwData mts compOffset compSize package offset length).completionCode =
        PLDM_FWUP_DATA_OUT_OF_RANGE ↔
      (compSize + PLDM_FWUP_BASELINE_TRANSFER_SIZE) % UINT32_MOD <
        (offset + length) % UINT32_MOD) ∧
    (offset + length < UINT32_MOD →
      compSize + PLDM_FWUP_BASELINE_TRANSFER_SIZE < UINT32_MOD →
      ((requestFwData mts compOffset compSize package offset length).completionCode =
          PLDM_FWUP_DATA_OUT_OF_RANGE ↔
        compSize + PLDM_FWUP_BASELINE_TRANSFER_SIZE < offset + length) ∧
      (offset + length = compSize + PLDM_FWUP_BASELINE_TRANSFER_SIZE →
        (requestFwData mts compOffset compSize package offset length).completionCode =
          PLDM_SUCCESS)) := by
  unfold requestFwData PLDM_FWUP_BASELINE_TRANSFER_SIZE
    PLDM_FWUP_INVALID_TRANSFER_LENGTH PLDM_FWUP_DATA_OUT_OF_RANGE
    PLDM_SUCCESS UINT32_MOD at *
  split_ifs with h1 h2 <;>
    simp_all [Nat.mod_eq_of_lt] <;>
    omega

/-- Witness for the amended claim C6 at mts = 64, compSize = 64,
offset = 64, length = 32 (the accepted boundary offset+length =
compSize+BASELINE). -/
theorem requestFwData_out_of_range_iff_witness :
    ((requestFwData 64 0 64 (fun _ => 7) 64 32).completionCode =
        PLDM_FWUP_DATA_OUT_OF_RANGE ↔
      (64 + PLDM_FWUP_BASELINE_TRANSFER_SIZE) % UINT32_MOD <
        (64 + 32) % UINT32_MOD) ∧
    (64 + 32 < UINT32_MOD →
      64 + PLDM_FWUP_BASELINE_TRANSFER_SIZE < UINT32_MOD →
      ((requestFwData 64 0 64 (fun _ => 7) 64 32).completionCode =
          PLDM_FWUP_DATA_OUT_OF_RANGE ↔
        64 + PLDM_FWUP_BASELINE_TRANSFER_SIZE < 64 + 32) ∧
      (64 + 32 = 64 + PLDM_FWUP_BASELINE_TRANSFER_SIZE →
        (requestFwData 64 0 64 (fun _ => 7) 64 32).completionCode =
          PLDM_SUCCESS)) :=
  requestFwData_out_of_range_iff 64 0 64 (fun _ => 7) 64 32
    (by decide) (by decide)

/-- Element access into a mapped range, the shape of the requestFwData
payload. -/
theorem rangeMap_getD (n i d : Nat) (f : Nat → Nat) (h : i < n) :
    ((List.range n).map f).getD i d = f i := by
  rw [List.getD_eq_getElem?_getD, List.getElem?_map, List.getElem?_range h]
  rfl

/-- Claim C8 counterexample: with maxTransferSize = 64, compOffset = 64,
compSize = 64, offset = 2^32 - 32 and length = 32 the request is accepted
(the 32-bit sum offset + length wraps to 0), the exact-integer sum exceeds
compSize, and the claim then demands a zero payload byte at every position
from compSize - offset (which is 0 after truncation, and negative as an
exact integer) up to length; but the source computes padBytes with the
wrapped sum, obtains 0, and fills the whole payload from the package
(position (compOffset + offset) mod 2^32 = 32), so byte 0 is a package
byte, not zero. -/
theorem requestFwData_payload_counterexample :
    (requestFwData 64 64 64 (fun _ => 7) 4294967264 32).completionCode =
      PLDM_SUCCESS ∧
    64 < 4294967264 + 32 ∧
    (requestFwData 64 64 64 (fun _ => 7) 4294967264 32).payload.getD 0 0 = 7 ∧
    (requestFwData 64 64 64 (fun _ => 7) 4294967264 32).payload.getD 0 0 ≠ 0 := by
  decide

/-- Claim C8 amended: for every accepted serve in which none of the 32-bit
sums offset + length, compSize + BASELINE and compOffset + offset wraps, the
SUCCESS response carries a payload of exactly length bytes, of which the
first min(length, compSize - offset) bytes are read from the package at byte
position compOffset + offset, and the trailing bytes at positions from
compSize - offset up to length are zero. -/
theorem requestFwData_payload_spec
    (mts compOffset compSize : Nat) (package : Nat → Nat) (offset length : Nat)
    (hlo : PLDM_FWUP_BASELINE_TRANSFER_SIZE ≤ length) (hhi : length ≤ mts)
    (hsum : offset + length < UINT32_MOD)
    (hbound : compSize + PLDM_FWUP_BASELINE_TRANSFER_SIZE < UINT32_MOD)
    (hpos : compOffset + offset < UINT32_MOD)
    (hacc : offset + length ≤ compSize + PLDM_FWUP_BASELINE_TRANSFER_SIZE) :
    (requestFwData mts compOffset compSize package offset length).completionCode =
      PLDM_SUCCESS ∧
    (requestFwData mts compOffset compSize package offset length).payload.length =
      length ∧
    (∀ i, i < min length (compSize - offset) →
      (requestFwData mts compOffset compSize package offset length).payload.getD i 0 =
        package (compOffset + offset + i)) ∧
    (∀ i, compSize - offset ≤ i → i < length →
      (requestFwData mts compOffset compSize package offset length).payload.getD i 0 = 0) := by
  simp only [PLDM_FWUP_BASELINE_TRANSFER_SIZE, UINT32_MOD] at *
  have h1 : ¬ (length < 32 ∨ mts < length) := by omega
  have hM : (offset + length) % 4294967296 = offset + length :=
    Nat.mod_eq_of_lt hsum
  have hB : (compSize + 32) % 4294967296 = compSize + 32 :=
    Nat.mod_eq_of_lt hbound
  have hP : (compOffset + offset) % 4294967296 = compOffset + offset :=
    Nat.mod_eq_of_lt hpos
  have h2 : ¬ ((compSize + 32) % 4294967296 <
      (offset + length) % 4294967296) := by
    rw [hM, hB]; omega
  unfold requestFwData PLDM_FWUP_BASELINE_TRANSFER_SIZE UINT32_MOD
  rw [if_neg h1, if_neg h2]
  simp only [hM, hP]
  by_cases hc : compSize < offset + length
  · have hoff : offset ≤ compSize := by omega
    have hpad : length - (offset + length - compSize) = compSize - offset := by
      omega
    have hmin : min length (compSize - offset) = compSize - offset := by omega
    rw [if_pos hc]
    refine ⟨trivial, by simp, ?_, ?_⟩
    · intro i hi
      rw [hmin] at hi
      rw [rangeMap_getD _ _ _ _ (by omega)]
      rw [if_pos (by omega)]
    · intro i hi hilen
      rw [rangeMap_getD _ _ _ _ hilen]
      rw [if_neg (by omega)]
  · have hmin : min length (compSize - offset) = length := by omega
    rw [if_neg hc]
    refine ⟨trivial, by simp, ?_, ?_⟩
    · intro i hi
      rw [hmin] at hi
      rw [rangeMap_getD _ _ _ _ hi]
      rw [if_pos (by omega)]
    · intro i hi hilen
      exact absurd hilen (by omega)

/-- Witness for the amended claim C8 at mts = 64, compOffset = 100,
compSize = 64, offset = 48, length = 32 (a serve with 16 padding bytes),
instantiated at payload positions 0 and 20. -/
theorem requestFwData_payload_spec_witness :
    (requestFwData 64 100 64 (fun p => p + 1) 48 32).completionCode =
      PLDM_SUCCESS ∧
    (requestFwData 64 100 64 (fun p => p + 1) 48 32).payload.length = 32 ∧
    (requestFwData 64 100 64 (fun p => p + 1) 48 32).payload.getD 0 0 = 149 ∧
    (requestFwData 64 100 64 (fun p => p + 1) 48 32).payload.getD 20 0 = 0 := by
  have h := requestFwData_payload_spec 64 100 64 (fun p => p + 1) 48 32
    (by decide) (by decide) (by decide) (by decide) (by decide) (by decide)
  exact ⟨h.1, h.2.1, by rw [h.2.2.1 0 (by decide)],
    h.2.2.2 20 (by decide) (by decide)⟩

/- ------------------------------------------------------------------ -/
/- Outbound send operations (FUD-SM senders and SSEB sendEventMsg).    -/
/- ------------------------------------------------------------------ -/

/-- Externally observable actions of a send operation or response handler:
calls into the instance-id allocator, the request pipeline, the logger and
the update manager, in program order. -/
inductive Effect
  | freeInstanceId (instanceId : Nat)
  | registerRequest (command : Nat) (instanceId : Nat)
  | updateDeviceCompletion (ok : Bool)
  | updateActivationProgress
  | cancelRequestSent
  | logError
deriving DecidableEq, Repr

/-- Environment of one send attempt: the outcome of the instance-id
allocation (pldm::utils::getInstanceId over instanceIdDb.next), of the codec
encode call (its return code) and of handler.registerRequest (its return
code). -/
structure SendEnv where
  instanceIdResult : Option Nat
  encodeRc : Nat
  registerRc : Nat
deriving DecidableEq, Repr

/-- DeviceUpdater::startFwUpdateFlow (device_updater.cpp lines 20-76).  On
encode failure the source frees the instance id and logs, but does not
return: it falls through to handler.registerRequest with the freed id. -/
def startFwUpdateFlow (env : SendEnv) : List Effect :=
  match env.instanceIdResult with
  | none => []
  | some instanceId =>
    (if env.encodeRc ≠ 0 then [.freeInstanceId instanceId, .logError] else []) ++
    [.registerRequest PLDM_REQUEST_UPDATE instanceId] ++
    (if env.registerRc ≠ 0 then [.logError] else [])

/-- DeviceUpdater::sendPassCompTableRequest (lines 119-215).  Same shape as
startFwUpdateFlow: the encode-failure branch frees the id and logs but falls
through to handler.registerRequest. -/
def sendPassCompTableRequest (env : SendEnv) : List Effect :=
  match env.instanceIdResult with
  | none => []
  | some instanceId =>
    (if env.encodeRc ≠ 0 then [.freeInstanceId instanceId, .logError] else []) ++
    [.registerRequest PLDM_PASS_COMPONENT_TABLE instanceId] ++
    (if env.registerRc ≠ 0 then [.logError] else [])

/-- DeviceUpdater::sendUpdateComponentRequest (lines 276-356).  The
encode-failure branch frees the id and logs but falls through to
handler.registerRequest. -/
def sendUpdateComponentRequest (env : SendEnv) : List Effect :=
  match env.instanceIdResult with
  | none => []
  | some instanceId =>
    (if env.encodeRc ≠ 0 then [.freeInstanceId instanceId, .logError] else []) ++
    [.registerRequest PLDM_UPDATE_COMPONENT instanceId] ++
    (if env.registerRc ≠ 0 then [.logError] else [])

/-- DeviceUpdater::sendActivateFirmwareRequest (lines 728-765).  The
encode-failure branch frees the id and logs but falls through to
handler.registerRequest. -/
def sendActivateFirmwareRequest (env : SendEnv) : List Effect :=
  match env.instanceIdResult with
  | none => []
  | some instanceId =>
    (if env.encodeRc ≠ 0 then [.freeInstanceId instanceId, .logError] else []) ++
    [.registerRequest PLDM_ACTIVATE_FIRMWARE instanceId] ++
    (if env.registerRc ≠ 0 then [.logError] else [])

/-- DeviceUpdater::sendCancelUpdateComponentRequest (lines 806-843).  Here
the encode-failure branch does return after freeing the id, so no request is
registered. -/
def sendCancelUpdateComponentRequest (env : SendEnv) : List Effect :=
  match env.instanceIdResult with
  | none => []
  | some instanceId =>
    if env.encodeRc ≠ 0 then [.freeInstanceId instanceId, .logError]
    else
      [.registerRequest PLDM_CANCEL_UPDATE_COMPONENT instanceId] ++
      (if env.registerRc ≠ 0 then [.logError] else [])

/-- DbusToPLDMEvent::sendEventMsg (src/unnamed/part_000 lines 27-83).  The
encode-failure branch frees the id, logs and returns, so no request is
registered. -/
def sendEventMsg (env : SendEnv) : List Effect :=
  match env.instanceIdResult with
  | none => []
  | some instanceId =>
    if env.encodeRc ≠ 0 then [.freeInstanceId instanceId, .logError]
    else
      [.registerRequest PLDM_PLATFORM_EVENT_MESSAGE instanceId] ++
      (if env.registerRc ≠ 0 then [.logError] else [])

/-- Claim C1, evaluated at the failing input (instance id 3 allocated,
encode returns a nonzero rc): startFwUpdateFlow, sendPassCompTableRequest,
sendUpdateComponentRequest and sendActivateFirmwareRequest free the instance
id but still register the request with the pipeline, so the operation is not
abandoned; only sendCancelUpdateComponentRequest and the SSEB sendEventMsg
abandon as the claim states. -/
theorem encode_failure_still_registers_request :
    startFwUpdateFlow ⟨some 3, 1, 0⟩ =
      [.freeInstanceId 3, .logError,
        .registerRequest PLDM_REQUEST_UPDATE 3] ∧
    Effect.registerRequest PLDM_REQUEST_UPDATE 3 ∈
      startFwUpdateFlow ⟨some 3, 1, 0⟩ ∧
    Effect.registerRequest PLDM_PASS_COMPONENT_TABLE 3 ∈
      sendPassCompTableRequest ⟨some 3, 1, 0⟩ ∧
    Effect.registerRequest PLDM_UPDATE_COMPONENT 3 ∈
      sendUpdateComponentRequest ⟨some 3, 1, 0⟩ ∧
    Effect.registerRequest PLDM_ACTIVATE_FIRMWARE 3 ∈
      sendActivateFirmwareRequest ⟨some 3, 1, 0⟩ ∧
    sendCancelUpdateComponentRequest ⟨some 3, 1, 0⟩ =
      [.freeInstanceId 3, .logError] ∧
    sendEventMsg ⟨some 3, 1, 0⟩ = [.freeInstanceId 3, .logError] := by
  decide

/- ------------------------------------------------------------------ -/
/- PassCompTable transfer flag (lines 130-149).                        -/
/- ------------------------------------------------------------------ -/

/-- The transfer flag computed by DeviceUpdater::sendPassCompTableRequest
(lines 133-149) from the number of applicable components and the component
position. -/
def passCompTableTransferFlag (numComponents offset : Nat) : Nat :=
  if numComponents = 1 then PLDM_START_AND_END
  else if offset = 0 then PLDM_START
  else if offset = numComponents - 1 then PLDM_END
  else PLDM_MIDDLE

/-- Claim C9 (confirmed): for every PassCompTable request at component
position i out of N applicable components (N at least 1, i < N), the
transfer flag is START_AND_END if N = 1, otherwise START if i = 0, otherwise
END if i = N - 1, otherwise MIDDLE. -/
theorem passCompTableTransferFlag_spec (N i : Nat) (_hN : 1 ≤ N) (hi : i < N) :
    (N = 1 → passCompTableTransferFlag N i = PLDM_START_AND_END) ∧
    (N ≠ 1 → i = 0 → passCompTableTransferFlag N i = PLDM_START) ∧
    (N ≠ 1 → i ≠ 0 → i = N - 1 →
      passCompTableTransferFlag N i = PLDM_END) ∧
    (N ≠ 1 → i ≠ 0 → i ≠ N - 1 →
      passCompTableTransferFlag N i = PLDM_MIDDLE) := by
  unfold passCompTableTransferFlag
  refine ⟨?_, ?_, ?_, ?_⟩ <;> intros <;> split_ifs <;> simp_all

/-- Witness for claim C9 at N = 3, i = 1 (a MIDDLE component). -/
theorem passCompTableTransferFlag_spec_witness :
    (3 = 1 → passCompTableTransferFlag 3 1 = PLDM_START_AND_END) ∧
    (3 ≠ 1 → 1 = 0 → passCompTableTransferFlag 3 1 = PLDM_START) ∧
    (3 ≠ 1 → 1 ≠ 0 → 1 = 3 - 1 →
      passCompTableTransferFlag 3 1 = PLDM_END) ∧
    (3 ≠ 1 → 1 ≠ 0 → 1 ≠ 3 - 1 →
      passCompTableTransferFlag 3 1 = PLDM_MIDDLE) :=
  passCompTableTransferFlag_spec 3 1 (by decide) (by decide)

/- ------------------------------------------------------------------ -/
/- FUD-SM response and request handlers (state-relevant part).         -/
/- ------------------------------------------------------------------ -/

/-- A continuation scheduled as a deferred event-loop task (the pldmRequest
Defer source): the next send operation and its component position. -/
inductive PendingAction
  | passCompTable (idx : Nat)
  | updateComponentAction (idx : Nat)
  | activateFirmware
deriving DecidableEq, Repr

/-- The state-relevant fields of DeviceUpdater: componentIndex, the ordered
map componentUpdateStatus (modelled as a key-sorted association list, like
std::map) and the at-most-one scheduled continuation. -/
structure DUState where
  componentIndex : Nat
  componentUpdateStatus : List (Nat × Bool)
  pending : Option PendingAction
deriving DecidableEq, Repr

/-- Insertion into the key-sorted association list modelling
std::map operator[] assignment. -/
def statusSet : List (Nat × Bool) → Nat → Bool → List (Nat × Bool)
  | [], k, b => [(k, b)]
  | (k', b') :: rest, k, b =>
    if k = k' then (k, b) :: rest
    else if k < k' then (k, b) :: (k', b') :: rest
    else (k', b') :: statusSet rest k b

/-- std::map lookup (find) of componentUpdateStatus. -/
def statusGet : List (Nat × Bool) → Nat → Option Bool
  | [], _ => none
  | (k', b') :: rest, k => if k = k' then some b' else statusGet rest k

/-- A response delivered to a FUD-SM response callback: either the null/empty
response the pipeline passes on delivery failure, a decode failure, or a
decoded completion code. -/
inductive FwResp
  | noResponse
  | decodeFailure
  | decoded (completionCode : Nat)
deriving DecidableEq, Repr

/-- DeviceUpdater::updateComponent response handler (lines 358-396).  In the
source, the nonzero-completion-code branch has its return statement before
the updateManager->updateDeviceCompletion(eid, false) call, so that call is
unreachable and the handler only logs. -/
def updateComponent (s : DUState) (resp : FwResp) : DUState × List Effect :=
  match resp with
  | .noResponse => (s, [.logError, .updateDeviceCompletion false])
  | .decodeFailure => (s, [.logError])
  | .decoded completionCode =>
    if completionCode ≠ 0 then (s, [.logError]) else (s, [])

/-- DeviceUpdater::cancelUpdateComponent response handler (lines 845-910).
Null response, decode failure and nonzero completion code each log and
return without advancing; only a successful response advances: to
UpdateComponent(i+1) with status[i+1] = true when i < N-1, and at the last
component to ActivateFirmware when some component status is true, else to a
device-completion failure report. -/
def cancelUpdateComponent (numComponents : Nat) (s : DUState) (resp : FwResp) :
    DUState × List Effect :=
  match resp with
  | .noResponse => (s, [.logError])
  | .decodeFailure => (s, [.logError])
  | .decoded completionCode =>
    if completionCode ≠ 0 then (s, [.logError])
    else if s.componentIndex = numComponents - 1 then
      if s.componentUpdateStatus.any (fun p => p.2) then
        ({ componentIndex := 0, componentUpdateStatus := [],
           pending := some .activateFirmware }, [])
      else (s, [.updateDeviceCompletion false])
    else
      ({ componentIndex := s.componentIndex + 1,
         componentUpdateStatus :=
           statusSet s.componentUpdateStatus (s.componentIndex + 1) true,
         pending := some (.updateComponentAction (s.componentIndex + 1)) }, [])

/-- DeviceUpdater::requestUpdate response handler (lines 78-117). -/
def requestUpdate (s : DUState) (resp : FwResp) : DUState × List Effect :=
  match resp with
  | .noResponse => (s, [.logError, .updateDeviceCompletion false])
  | .decodeFailure => (s, [.logError])
  | .decoded completionCode =>
    if completionCode ≠ 0 then (s, [.logError, .updateDeviceCompletion false])
    else ({ s with pending := some (.passCompTable s.componentIndex) }, [])

/-- DeviceUpdater::passCompTable response handler (lines 217-274). -/
def passCompTable (numComponents : Nat) (s : DUState) (resp : FwResp) :
    DUState × List Effect :=
  match resp with
  | .noResponse => (s, [.logError, .updateDeviceCompletion false])
  | .decodeFailure => (s, [.logError])
  | .decoded completionCode =>
    if completionCode ≠ 0 then (s, [.logError, .updateDeviceCompletion false])
    else if s.componentIndex = numComponents - 1 then
      ({ s with
         componentIndex := 0
         pending := some (.updateComponentAction 0) }, [])
    else
      ({ s with
         componentIndex := s.componentIndex + 1
         pending := some (.passCompTable (s.componentIndex + 1)) }, [])

/-- DeviceUpdater::transferComplete request handler (lines 517-583),
state-relevant part after a successful or failed decode of the
TransferComplete request (none models the decode failure).  On a transfer
failure the handler reports device failure, sets status[i] = false and
tail-calls sendCancelUpdateComponentRequest, which resets the pending
deferred source. -/
def transferComplete (s : DUState) (transferResult : Option Nat) :
    DUState × List Effect :=
  match transferResult with
  | none => (s, [.logError])
  | some result =>
    if result = PLDM_FWUP_TRANSFER_SUCCESS then (s, [])
    else
      ({ s with
         componentUpdateStatus :=
           statusSet s.componentUpdateStatus s.componentIndex false
         pending := none },
       [.logError, .updateDeviceCompletion false, .cancelRequestSent])

/-- DeviceUpdater::verifyComplete request handler (lines 585-644),
state-relevant part. -/
def verifyComplete (s : DUState) (verifyResult : Option Nat) :
    DUState × List Effect :=
  match verifyResult with
  | none => (s, [.logError])
  | some result =>
    if result = PLDM_FWUP_VERIFY_SUCCESS then (s, [])
    else
      ({ s with
         componentUpdateStatus :=
           statusSet s.componentUpdateStatus s.componentIndex false
         pending := none },
       [.logError, .updateDeviceCompletion false, .cancelRequestSent])

/-- DeviceUpdater::applyComplete request handler (lines 646-726),
state-relevant part.  On apply success at the last component it resets the
index, clears the status map and re-seeds entry 0 with true before
scheduling ActivateFirmware; otherwise it advances, marks the next component
true and schedules its UpdateComponent request. -/
def applyComplete (numComponents : Nat) (s : DUState) (applyResult : Option Nat) :
    DUState × List Effect :=
  match applyResult with
  | none => (s, [.logError])
  | some result =>
    if result = PLDM_FWUP_APPLY_SUCCESS ∨
        result = PLDM_FWUP_APPLY_SUCCESS_WITH_ACTIVATION_METHOD then
      if s.componentIndex = numComponents - 1 then
        ({ componentIndex := 0, componentUpdateStatus := statusSet [] 0 true,
           pending := some .activateFirmware }, [.updateActivationProgress])
      else
        ({ componentIndex := s.componentIndex + 1,
           componentUpdateStatus :=
             statusSet s.componentUpdateStatus (s.componentIndex + 1) true,
           pending := some (.updateComponentAction (s.componentIndex + 1)) },
         [.updateActivationProgress])
    else
      ({ s with
         componentUpdateStatus :=
           statusSet s.componentUpdateStatus s.componentIndex false
         pending := none },
       [.logError, .updateDeviceCompletion false, .cancelRequestSent])

/-- The request firmware data timeout callback installed by
DeviceUpdater::createRequestFwDataTimer (lines 398-405): it sets
status[i] = false, sends CancelUpdateComponent (resetting the deferred
source) and reports device failure. -/
def requestFwDataTimerExpired (s : DUState) : DUState × List Effect :=
  ({ s with
     componentUpdateStatus :=
       statusSet s.componentUpdateStatus s.componentIndex false
     pending := none },
   [.cancelRequestSent, .updateDeviceCompletion false])

/-- The inputs that drive the state-relevant FUD-SM handlers. -/
inductive DUEvent
  | requestUpdateResp (r : FwResp)
  | passCompTableResp (r : FwResp)
  | updateComponentResp (r : FwResp)
  | transferCompleteReq (r : Option Nat)
  | verifyCompleteReq (r : Option Nat)
  | applyCompleteReq (r : Option Nat)
  | cancelUpdateComponentResp (r : FwResp)
  | timerExpiry
deriving DecidableEq, Repr

/-- Dispatch of one event to the corresponding handler. -/
def duStep (numComponents : Nat) (s : DUState) (e : DUEvent) :
    DUState × List Effect :=
  match e with
  | .requestUpdateResp r => requestUpdate s r
  | .passCompTableResp r => passCompTable numComponents s r
  | .updateComponentResp r => updateComponent s r
  | .transferCompleteReq r => transferComplete s r
  | .verifyCompleteReq r => verifyComplete s r
  | .applyCompleteReq r => applyComplete numComponents s r
  | .cancelUpdateComponentResp r => cancelUpdateComponent numComponents s r
  | .timerExpiry => requestFwDataTimerExpired s

/-- The events in which the device or the timer reports a component
failure: a failed transfer, verify or apply result, or the data-request
timer expiring. -/
def isComponentFailureEvent : DUEvent → Bool
  | .transferCompleteReq (some r) => r ≠ PLDM_FWUP_TRANSFER_SUCCESS
  | .verifyCompleteReq (some r) => r ≠ PLDM_FWUP_VERIFY_SUCCESS
  | .applyCompleteReq (some r) =>
      ¬ (r = PLDM_FWUP_APPLY_SUCCESS ∨
         r = PLDM_FWUP_APPLY_SUCCESS_WITH_ACTIVATION_METHOD)
  | .timerExpiry => true
  | _ => false

/-- statusGet after statusSet: the written key reads back the written value,
every other key is unchanged. -/
theorem statusGet_statusSet (m : List (Nat × Bool)) (k j : Nat) (b : Bool) :
    statusGet (statusSet m k b) j = if j = k then some b else statusGet m j := by
  induction m with
  | nil =>
    simp only [statusSet, statusGet]
  | cons hd tl ih =>
    obtain ⟨k', b'⟩ := hd
    simp only [statusSet]
    split_ifs with h1 h2 <;>
      simp only [statusGet, ih] <;>
      split_ifs <;> simp_all

/-- Claim C2, evaluated at the failing input (a decoded UpdateComponent
response with completion code 1): the handler only logs and leaves the state
unchanged; no updateDeviceCompletion(eid, false) call is made, because in
the source the return statement precedes the
updateManager->updateDeviceCompletion(eid, false) call (device_updater.cpp
lines 393-394), making that call unreachable. -/
theorem updateComponent_nonzero_cc_skips_completion :
    updateComponent ⟨0, [], none⟩ (.decoded 1) =
      (⟨0, [], none⟩, [.logError]) ∧
    Effect.updateDeviceCompletion false ∉
      (updateComponent ⟨0, [], none⟩ (.decoded 1)).2 := by
  decide

/-- Claim C5 counterexample: a CancelUpdateComponent response with nonzero
completion code at component 0 of 2 leaves the state unchanged (no pending
continuation), whereas the claim demands that the handler continue exactly
as on success, advancing to UpdateComponent(1). -/
theorem cancelUpdateComponent_error_counterexample :
    cancelUpdateComponent 2 ⟨0, [(0, false)], none⟩ (.decoded 1) =
      (⟨0, [(0, false)], none⟩, [.logError]) ∧
    (cancelUpdateComponent 2 ⟨0, [(0, false)], none⟩ (.decoded 1)).1.pending ≠
      some (.updateComponentAction 1) := by
  decide

/-- Claim C5 amended: on an error response (null response, decode failure or
nonzero completion code) the CancelUpdateComponent handler logs the error
and returns without advancing; only a successful response advances: for
i < N-1 to UpdateComponent(i+1) with status[i+1] = true, and for i = N-1 to
Activating when any component status is true, else to a device completion
failure report. -/
theorem cancelUpdateComponent_spec (N : Nat) (s : DUState)
    (_hN : 1 ≤ N) (_hi : s.componentIndex < N) :
    (cancelUpdateComponent N s .noResponse = (s, [.logError])) ∧
    (cancelUpdateComponent N s .decodeFailure = (s, [.logError])) ∧
    (∀ cc, cc ≠ 0 →
      cancelUpdateComponent N s (.decoded cc) = (s, [.logError])) ∧
    (s.componentIndex ≠ N - 1 →
      cancelUpdateComponent N s (.decoded 0) =
        ({ componentIndex := s.componentIndex + 1,
           componentUpdateStatus :=
             statusSet s.componentUpdateStatus (s.componentIndex + 1) true,
           pending := some (.updateComponentAction (s.componentIndex + 1)) },
          [])) ∧
    (s.componentIndex = N - 1 →
      s.componentUpdateStatus.any (fun p => p.2) = true →
      cancelUpdateComponent N s (.decoded 0) =
        ({ componentIndex := 0, componentUpdateStatus := [],
           pending := some .activateFirmware }, [])) ∧
    (s.componentIndex = N - 1 →
      s.componentUpdateStatus.any (fun p => p.2) = false →
      cancelUpdateComponent N s (.decoded 0) =
        (s, [.updateDeviceCompletion false])) := by
  refine ⟨rfl, rfl, ?_, ?_, ?_, ?_⟩
  · intro cc hcc
    simp [cancelUpdateComponent, hcc]
  · intro h
    simp [cancelUpdateComponent, h]
  · intro h ha
    simp [cancelUpdateComponent, h, ha]
  · intro h ha
    simp [cancelUpdateComponent, h, ha]

/-- Witness for the amended claim C5: a successful cancel response at
component 0 of 2 with status map [(0, false)] advances to component 1,
marks it true and schedules its UpdateComponent request. -/
theorem cancelUpdateComponent_spec_witness :
    cancelUpdateComponent 2 ⟨0, [(0, false)], none⟩ (.decoded 0) =
      (⟨1, [(0, false), (1, true)], some (.updateComponentAction 1)⟩, []) := by
  have h := cancelUpdateComponent_spec 2 ⟨0, [(0, false)], none⟩
    (by decide) (by decide)
  exact (h.2.2.2.1 (by decide)).trans (by decide)

/-- Claim C10 (confirmed): whenever the FUD-SM advances from component i to
i+1 — on an ApplyComplete with a success result at i < N-1, or on a
successful CancelUpdateComponent response at i < N-1 — the new state has
componentUpdateStatus[i+1] = true and the deferred UpdateComponent(i+1)
request scheduled; and an entry of componentUpdateStatus becomes false only
on a transfer, verify or apply failure or a timer expiry, and then only for
the current component index. -/
theorem componentUpdateStatus_advance_invariant
    (N : Nat) (s : DUState) (e : DUEvent) :
    (∀ r, e = .applyCompleteReq (some r) →
      (r = PLDM_FWUP_APPLY_SUCCESS ∨
        r = PLDM_FWUP_APPLY_SUCCESS_WITH_ACTIVATION_METHOD) →
      s.componentIndex ≠ N - 1 →
      (statusGet (duStep N s e).1.componentUpdateStatus
          (s.componentIndex + 1) = some true ∧
        (duStep N s e).1.pending =
          some (.updateComponentAction (s.componentIndex + 1)))) ∧
    (e = .cancelUpdateComponentResp (.decoded 0) →
      s.componentIndex ≠ N - 1 →
      (statusGet (duStep N s e).1.componentUpdateStatus
          (s.componentIndex + 1) = some true ∧
        (duStep N s e).1.pending =
          some (.updateComponentAction (s.componentIndex + 1)))) ∧
    (∀ j, statusGet (duStep N s e).1.componentUpdateStatus j = some false →
      statusGet s.componentUpdateStatus j ≠ some false →
      (isComponentFailureEvent e = true ∧ j = s.componentIndex)) := by
  refine ⟨?_, ?_, ?_⟩
  · intro r he hr hlast
    subst he
    simp [duStep, applyComplete, hr, hlast, statusGet_statusSet]
  · intro he hlast
    subst he
    simp [duStep, cancelUpdateComponent, hlast, statusGet_statusSet]
  · intro j hnew hold
    cases e with
    | requestUpdateResp r =>
      cases r with
      | noResponse => exact absurd hnew hold
      | decodeFailure => exact absurd hnew hold
      | decoded cc =>
        by_cases hcc : cc ≠ 0 <;>
          simp [duStep, requestUpdate, hcc] at hnew <;>
          exact absurd hnew hold
    | passCompTableResp r =>
      cases r with
      | noResponse => exact absurd hnew hold
      | decodeFailure => exact absurd hnew hold
      | decoded cc =>
        by_cases hcc : cc ≠ 0 <;>
          by_cases hlast : s.componentIndex = N - 1 <;>
          simp [duStep, passCompTable, hcc, hlast] at hnew <;>
          exact absurd hnew hold
    | updateComponentResp r =>
      cases r with
      | noResponse => exact absurd hnew hold
      | decodeFailure => exact absurd hnew hold
      | decoded cc =>
        by_cases hcc : cc ≠ 0 <;>
          simp [duStep, updateComponent, hcc] at hnew <;>
          exact absurd hnew hold
    | transferCompleteReq r =>
      cases r with
      | none => exact absurd hnew hold
      | some result =>
        by_cases hres : result = PLDM_FWUP_TRANSFER_SUCCESS
        · simp [duStep, transferComplete, hres] at hnew
          exact absurd hnew hold
        · simp [duStep, transferComplete, hres, statusGet_statusSet] at hnew
          by_cases hj : j = s.componentIndex
          · exact ⟨by simp [isComponentFailureEvent, hres], hj⟩
          · exact absurd (hnew hj) hold
    | verifyCompleteReq r =>
      cases r with
      | none => exact absurd hnew hold
      | some result =>
        by_cases hres : result = PLDM_FWUP_VERIFY_SUCCESS
        · simp [duStep, verifyComplete, hres] at hnew
          exact absurd hnew hold
        · simp [duStep, verifyComplete, hres, statusGet_statusSet] at hnew
          by_cases hj : j = s.componentIndex
          · exact ⟨by simp [isComponentFailureEvent, hres], hj⟩
          · exact absurd (hnew hj) hold
    | applyCompleteReq r =>
      cases r with
      | none => exact absurd hnew hold
      | some result =>
        by_cases hres : result = PLDM_FWUP_APPLY_SUCCESS ∨
            result = PLDM_FWUP_APPLY_SUCCESS_WITH_ACTIVATION_METHOD
        · by_cases hlast : s.componentIndex = N - 1 <;>
            simp [duStep, applyComplete, hres, hlast,
              statusGet_statusSet] at hnew
          · split_ifs at hnew <;> simp_all [statusGet]
          · by_cases hj : j = s.componentIndex + 1
            · rw [if_pos hj] at hnew
              exact absurd hnew (by decide)
            · rw [if_neg hj] at hnew
              exact absurd hnew hold
        · simp [duStep, applyComplete, hres, statusGet_statusSet] at hnew
          by_cases hj : j = s.componentIndex
          · refine ⟨by simp [isComponentFailureEvent]; tauto, hj⟩
          · exact absurd (hnew hj) hold
    | cancelUpdateComponentResp r =>
      cases r with
      | noResponse => exact absurd hnew hold
      | decodeFailure => exact absurd hnew hold
      | decoded cc =>
        by_cases hcc : cc ≠ 0
        · simp [duStep, cancelUpdateComponent, hcc] at hnew
          exact absurd hnew hold
        · by_cases hlast : s.componentIndex = N - 1
          · by_cases hany : s.componentUpdateStatus.any (fun p => p.2)
            · simp [duStep, cancelUpdateComponent, hcc, hlast, hany,
                statusGet] at hnew
            · simp [duStep, cancelUpdateComponent, hcc, hlast, hany,
                statusGet] at hnew
              exact absurd hnew hold
          · simp [duStep, cancelUpdateComponent, hcc, hlast,
              statusGet_statusSet] at hnew
            by_cases hj : j = s.componentIndex + 1
            · rw [if_pos hj] at hnew
              exact absurd hnew (by decide)
            · rw [if_neg hj] at hnew
              exact absurd hnew hold
    | timerExpiry =>
      simp [duStep, requestFwDataTimerExpired, statusGet_statusSet] at hnew
      by_cases hj : j = s.componentIndex
      · exact ⟨by simp [isComponentFailureEvent], hj⟩
      · exact absurd (hnew hj) hold

/-- Witness for claim C10: an ApplyComplete success at component 0 of 2
marks component 1 true and schedules its UpdateComponent request. -/
theorem componentUpdateStatus_advance_invariant_witness :
    statusGet
        (duStep 2 ⟨0, [(0, true)], none⟩
          (.applyCompleteReq (some 0))).1.componentUpdateStatus 1 =
      some true ∧
    (duStep 2 ⟨0, [(0, true)], none⟩
        (.applyCompleteReq (some 0))).1.pending =
      some (.updateComponentAction 1) := by
  have h := componentUpdateStatus_advance_invariant 2 ⟨0, [(0, true)], none⟩
    (.applyCompleteReq (some 0))
  exact h.1 0 rfl (Or.inl rfl) (by decide)

/- ------------------------------------------------------------------ -/
/- State-sensor event bridge, DbusToPLDMEvent (src/unnamed/part_000).  -/
/- ------------------------------------------------------------------ -/

/-- A bus property value: the dbus variant restricted to the cases the
matching loop distinguishes (a string, or any other value compared by plain
equality and rendered here by a numeric code). -/
inductive PropVal
  | str (s : String)
  | num (v : Nat)
deriving DecidableEq, Repr

/-- Modelled from the spec: the strip step of pldm::utils::split (a utils
helper whose body is not under src); the call site passes " " as the strip
set, so leading and trailing space characters of each token are removed. -/
def stripSpaces (s : String) : String :=
  String.mk (((s.toList.dropWhile (fun c => c == ' ')).reverse.dropWhile
    (fun c => c == ' ')).reverse)

/-- One iteration of the value-matching loop of sendStateSensorEvent
(part_000 lines 129-154): for property type string the candidate is split
on the separator "||" with space stripping and the incoming string may
equal any token; otherwise plain equality on the variant value. -/
def matchesCandidate (propertyType : String) (candidate incoming : PropVal) :
    Bool :=
  if propertyType = "string" then
    match candidate, incoming with
    | .str src, .str dst =>
      ((src.splitOn "||").map stripSpaces).any (fun v => v == dst)
    | _, _ => false
  else
    if candidate = incoming then true else false

/-- The parts of a dbus mapping the signal handler reads: the property name
it filters on and the property type tag selecting the comparison branch. -/
structure DbusMapping where
  propertyName : String
  propertyType : String
deriving DecidableEq, Repr

/-- Lookup of a property in the properties-changed map delivered by the bus
signal (props.contains / props.at in the source). -/
def propsGet : List (String × PropVal) → String → Option PropVal
  | [], _ => none
  | (name, v) :: rest, wanted =>
    if name = wanted then some v else propsGet rest wanted

/-- The SSEB sensor state cache keyed by (sensor id, composite offset).  An
absent key behaves like the UNKNOWN (0xff) initial value of the
per-sensor vector. -/
abbrev SensorCache := List ((Nat × Nat) × Nat)

/-- Cache lookup (sensorCacheMap.contains plus indexing at the composite
offset). -/
def cacheGet : SensorCache → Nat → Nat → Option Nat
  | [], _, _ => none
  | (key, v) :: rest, sensorId, offset =>
    if key = (sensorId, offset) then some v else cacheGet rest sensorId offset

/-- Modelled from the spec: DbusToPLDMEvent::updateSensorCacheMaps (declared
in the SSEB header, body not under src) stores
cache[sensor_id][offset] = value. -/
def updateSensorCacheMaps (cache : SensorCache) (sensorId offset value : Nat) :
    SensorCache :=
  match cache with
  | [] => [((sensorId, offset), value)]
  | (key, v') :: rest =>
    if key = (sensorId, offset) then ((sensorId, offset), value) :: rest
    else (key, v') :: updateSensorCacheMaps rest sensorId offset value

/-- cacheGet after updateSensorCacheMaps: the written key reads back the
written value, other keys are unchanged. -/
theorem cacheGet_updateSensorCacheMaps (cache : SensorCache)
    (sensorId offset value sid off : Nat) :
    cacheGet (updateSensorCacheMaps cache sensorId offset value) sid off =
      if ((sid, off) : Nat × Nat) = (sensorId, offset) then some value
      else cacheGet cache sid off := by
  induction cache with
  | nil =>
    by_cases h : ((sid, off) : Nat × Nat) = (sensorId, offset)
    · simp [updateSensorCacheMaps, cacheGet, h]
    · simp [updateSensorCacheMaps, cacheGet, h, Ne.symm h]
  | cons hd tl ih =>
    obtain ⟨key, v'⟩ := hd
    by_cases h1 : key = ((sensorId, offset) : Nat × Nat)
    · subst h1
      by_cases h : ((sid, off) : Nat × Nat) = (sensorId, offset)
      · simp [updateSensorCacheMaps, cacheGet, h]
      · simp [updateSensorCacheMaps, cacheGet, h, Ne.symm h]
    · by_cases h2 : key = ((sid, off) : Nat × Nat)
      · have hne : ¬ ((sid, off) : Nat × Nat) = (sensorId, offset) :=
          fun hh => h1 (h2.trans hh)
        simp [updateSensorCacheMaps, cacheGet, h1, h2, hne]
      · by_cases h3 : ((sid, off) : Nat × Nat) = (sensorId, offset)
        · simp [updateSensorCacheMaps, cacheGet, h1, h2, h3, ih]
        · simp [updateSensorCacheMaps, cacheGet, h1, h2, h3, ih]

/-- Whether sendEventMsg successfully handed the PlatformEventMessage to the
request pipeline: an instance id was allocated, the encode succeeded and
registerRequest returned 0. -/
def sendEventMsgDelivered (env : SendEnv) : Bool :=
  match env.instanceIdResult with
  | none => false
  | some _ => env.encodeRc == 0 && env.registerRc == 0

/-- Record of one matched property-change signal: the matched state code
(written to event_class[1]), the reported previous state (written to
event_class[2] and then stored in the cache), and whether the event message
was successfully emitted. -/
structure MatchRec where
  state : Nat
  previousState : Nat
  emitted : Bool
deriving DecidableEq, Repr

/-- The sensor event data assembled in sendStateSensorEvent (part_000 lines
104-111 and 158-171): sensor_id, event_class[0] = offset,
event_class[1] = matched state, event_class[2] = previous state. -/
structure SensorEvent where
  sensor_id : Nat
  eventClass0 : Nat
  eventClass1 : Nat
  eventClass2 : Nat
deriving DecidableEq, Repr

/-- Event built from a matched record. -/
def matchedEvent (sensorId offset : Nat) (r : MatchRec) : SensorEvent :=
  { sensor_id := sensorId, eventClass0 := offset,
    eventClass1 := r.state, eventClass2 := r.previousState }

/-- The property-changed signal handler registered by sendStateSensorEvent
for one (sensor id, composite offset) subscription (part_000 lines
119-178): ignore the signal when the property is absent; find the first
matching value-map entry; compute previousState from the cache (the cached
value when present and not UNKNOWN, else the matched state); send the event
message; update the cache with previousState — unconditionally, whether or
not the send succeeded. -/
def handlePropertiesChanged (sensorId offset : Nat)
    (dbusMapping : DbusMapping) (dbusValueMapping : List (Nat × PropVal))
    (env : SendEnv) (props : List (String × PropVal)) (cache : SensorCache) :
    Option MatchRec × SensorCache :=
  match propsGet props dbusMapping.propertyName with
  | none => (none, cache)
  | some incoming =>
    match dbusValueMapping.find? (fun itr =>
        matchesCandidate dbusMapping.propertyType itr.2 incoming) with
    | none => (none, cache)
    | some itr =>
      let previousState :=
        match cacheGet cache sensorId offset with
        | some v => if v ≠ PLDM_SENSOR_UNKNOWN then v else itr.1
        | none => itr.1
      (some { state := itr.1, previousState := previousState,
              emitted := sendEventMsgDelivered env },
        updateSensorCacheMaps cache sensorId offset previousState)

/-- Characterization of handlePropertiesChanged: a matched signal reports
previousState computed from the cache and stores exactly that value; an
unmatched signal leaves the cache untouched. -/
theorem handlePropertiesChanged_cases (sensorId offset : Nat)
    (dbusMapping : DbusMapping) (dbusValueMapping : List (Nat × PropVal))
    (env : SendEnv) (props : List (String × PropVal)) (cache : SensorCache) :
    (∀ r, (handlePropertiesChanged sensorId offset dbusMapping
        dbusValueMapping env props cache).1 = some r →
      (handlePropertiesChanged sensorId offset dbusMapping dbusValueMapping
          env props cache).2 =
        updateSensorCacheMaps cache sensorId offset r.previousState ∧
      r.previousState =
        (match cacheGet cache sensorId offset with
         | some v => if v ≠ PLDM_SENSOR_UNKNOWN then v else r.state
         | none => r.state)) ∧
    ((handlePropertiesChanged sensorId offset dbusMapping dbusValueMapping
        env props cache).1 = none →
      (handlePropertiesChanged sensorId offset dbusMapping dbusValueMapping
          env props cache).2 = cache) := by
  cases h1 : propsGet props dbusMapping.propertyName with
  | none =>
    have he : handlePropertiesChanged sensorId offset dbusMapping
        dbusValueMapping env props cache = (none, cache) := by
      simp [handlePropertiesChanged, h1]
    rw [he]
    exact ⟨fun r hr => by simp at hr, fun _ => rfl⟩
  | some incoming =>
    cases h2 : dbusValueMapping.find? (fun itr =>
        matchesCandidate dbusMapping.propertyType itr.2 incoming) with
    | none =>
      have he : handlePropertiesChanged sensorId offset dbusMapping
          dbusValueMapping env props cache = (none, cache) := by
        simp [handlePropertiesChanged, h1, h2]
      rw [he]
      exact ⟨fun r hr => by simp at hr, fun _ => rfl⟩
    | some itr =>
      have he : handlePropertiesChanged sensorId offset dbusMapping
          dbusValueMapping env props cache =
          (some { state := itr.1,
                  previousState :=
                    (match cacheGet cache sensorId offset with
                     | some v =>
                       if v ≠ PLDM_SENSOR_UNKNOWN then v else itr.1
                     | none => itr.1),
                  emitted := sendEventMsgDelivered env },
            updateSensorCacheMaps cache sensorId offset
              (match cacheGet cache sensorId offset with
               | some v => if v ≠ PLDM_SENSOR_UNKNOWN then v else itr.1
               | none => itr.1)) := by
        simp [handlePropertiesChanged, h1, h2]
      rw [he]
      constructor
      · intro r hr
        simp only [Option.some.injEq] at hr
        subst hr
        exact ⟨rfl, rfl⟩
      · intro hn
        simp at hn

/-- One run of the subscription's handler over a list of incoming signals,
threading the cache and collecting the matched records in order. -/
def runSignals (sensorId offset : Nat) (dbusMapping : DbusMapping)
    (dbusValueMapping : List (Nat × PropVal)) (cache : SensorCache) :
    List (SendEnv × List (String × PropVal)) → List MatchRec × SensorCache
  | [] => ([], cache)
  | (env, props) :: rest =>
    match handlePropertiesChanged sensorId offset dbusMapping dbusValueMapping
        env props cache with
    | (none, cache2) =>
      runSignals sensorId offset dbusMapping dbusValueMapping cache2 rest
    | (some r, cache2) =>
      let tail := runSignals sensorId offset dbusMapping dbusValueMapping
        cache2 rest
      (r :: tail.1, tail.2)

/-- The chain property of the reported previous states: each matched record
reports, as previous state, the value reported as previous by the last
matched record (when that is not UNKNOWN), or its own new state when there
is no prior matched record or the remembered value is UNKNOWN. -/
def prevChainOk : Option Nat → List MatchRec → Bool
  | _, [] => true
  | last?, r :: rs =>
    (r.previousState ==
      (match last? with
       | some v => if v ≠ PLDM_SENSOR_UNKNOWN then v else r.state
       | none => r.state)) &&
    prevChainOk (some r.previousState) rs

/-- The previous-state chain holds for every run, over any starting cache:
the records of a run out of a cache whose entry for this subscription reads
last? satisfy the chain rooted at last?. -/
theorem runSignals_prevChain (sensorId offset : Nat)
    (dbusMapping : DbusMapping) (dbusValueMapping : List (Nat × PropVal))
    (signals : List (SendEnv × List (String × PropVal))) :
    ∀ cache : SensorCache,
      prevChainOk (cacheGet cache sensorId offset)
        (runSignals sensorId offset dbusMapping dbusValueMapping cache
          signals).1 = true := by
  induction signals with
  | nil => intro cache; simp [runSignals, prevChainOk]
  | cons sig rest ih =>
    intro cache
    obtain ⟨env, props⟩ := sig
    have hcases := handlePropertiesChanged_cases sensorId offset dbusMapping
      dbusValueMapping env props cache
    cases hh : handlePropertiesChanged sensorId offset dbusMapping
        dbusValueMapping env props cache with
    | mk first cache2 =>
      cases first with
      | none =>
        have hc : cache2 = cache := by
          have := hcases.2
          rw [hh] at this
          exact this rfl
        simp only [runSignals, hh]
        rw [hc]
        exact ih cache
      | some r =>
        have hr := hcases.1 r (by rw [hh])
        rw [hh] at hr
        have hmut : cache2 =
            updateSensorCacheMaps cache sensorId offset r.previousState :=
          hr.1
        simp only [runSignals, hh, prevChainOk]
        have h1 : (r.previousState ==
            (match cacheGet cache sensorId offset with
             | some v => if v ≠ PLDM_SENSOR_UNKNOWN then v else r.state
             | none => r.state)) = true := by
          rw [beq_iff_eq]
          exact hr.2
        rw [h1, Bool.true_and]
        have h2 : cacheGet cache2 sensorId offset = some r.previousState := by
          rw [hmut, cacheGet_updateSensorCacheMaps]
          simp
        have := ih cache2
        rw [h2] at this
        exact this

/-- Claim C3 counterexample: a run of three matched and emitted signals
(states 1, 2, 3 in turn, from the fresh cache) produces events whose
event_class[2] is stuck at 1 — the third event reports previous state 1,
whereas the state last emitted as new (event_class[1] of the second
emission) is 2. -/
theorem sensorEvent_previous_state_counterexample :
    (((runSignals 5 0 ⟨"p", "uint8"⟩
            [(1, .num 10), (2, .num 20), (3, .num 30)] []
            [(⟨some 0, 0, 0⟩, [("p", .num 10)]),
             (⟨some 0, 0, 0⟩, [("p", .num 20)]),
             (⟨some 0, 0, 0⟩, [("p", .num 30)])]).1.filter
          (fun r => r.emitted)).map (matchedEvent 5 0) =
        [⟨5, 0, 1, 1⟩, ⟨5, 0, 2, 1⟩, ⟨5, 0, 3, 1⟩]) ∧
    ¬ ((⟨5, 0, 3, 1⟩ : SensorEvent).eventClass2 =
        (⟨5, 0, 2, 1⟩ : SensorEvent).eventClass1) := by
  decide

/-- Claim C3 amended: for every sequence of signals handled for one
(sensor id, composite offset) subscription from the fresh cache, every
emitted event has event_class[0] = offset and event_class[1] = the matched
state of its signal, and the reported previous states satisfy the chain:
each matched signal reports as previous the value reported as previous by
the most recent prior matched signal (whether or not that message was
successfully emitted), or its own new state when there is no prior matched
signal or the remembered value is UNKNOWN — not the value last emitted as
new. -/
theorem sendStateSensorEvent_event_fields
    (sensorId offset : Nat) (dbusMapping : DbusMapping)
    (dbusValueMapping : List (Nat × PropVal))
    (signals : List (SendEnv × List (String × PropVal))) :
    prevChainOk none
      (runSignals sensorId offset dbusMapping dbusValueMapping [] signals).1 =
      true ∧
    ∀ ev ∈ ((runSignals sensorId offset dbusMapping dbusValueMapping []
          signals).1.filter (fun r => r.emitted)).map
        (matchedEvent sensorId offset),
      ev.sensor_id = sensorId ∧ ev.eventClass0 = offset ∧
      ∃ r, r ∈ (runSignals sensorId offset dbusMapping dbusValueMapping []
          signals).1 ∧ r.emitted = true ∧
        ev.eventClass1 = r.state ∧ ev.eventClass2 = r.previousState := by
  constructor
  · have h := runSignals_prevChain sensorId offset dbusMapping
      dbusValueMapping signals []
    simpa [cacheGet] using h
  · intro ev hev
    simp only [List.mem_map, List.mem_filter] at hev
    obtain ⟨r, ⟨hrmem, hremit⟩, rfl⟩ := hev
    exact ⟨rfl, rfl, r, hrmem, hremit, rfl, rfl⟩

/-- Witness for the amended claim C3 at a one-signal run (state 9 matched
and emitted). -/
theorem sendStateSensorEvent_event_fields_witness :
    prevChainOk none
      (runSignals 5 0 ⟨"p", "uint8"⟩ [(3, .num 9)] []
        [(⟨some 0, 0, 0⟩, [("p", .num 9)])]).1 = true ∧
    (matchedEvent 5 0 ⟨3, 3, true⟩).sensor_id = 5 ∧
    (matchedEvent 5 0 ⟨3, 3, true⟩).eventClass0 = 0 := by
  have h := sendStateSensorEvent_event_fields 5 0 ⟨"p", "uint8"⟩
    [(3, .num 9)] [(⟨some 0, 0, 0⟩, [("p", .num 9)])]
  refine ⟨h.1, ?_, ?_⟩
  · exact (h.2 (matchedEvent 5 0 ⟨3, 3, true⟩) (by decide)).1
  · exact (h.2 (matchedEvent 5 0 ⟨3, 3, true⟩) (by decide)).2.1

/-- Claim C4 counterexample: on instance-id exhaustion the event message is
not handed to the pipeline (sendEventMsg performs no action at all), yet
the matched signal still updates the sensor cache: from the empty cache the
entry for (5, 0) becomes 3. -/
theorem sensorCache_mutation_counterexample :
    sendEventMsgDelivered ⟨none, 0, 0⟩ = false ∧
    sendEventMsg ⟨none, 0, 0⟩ = [] ∧
    (handlePropertiesChanged 5 0 ⟨"p", "uint8"⟩ [(3, .num 7)] ⟨none, 0, 0⟩
        [("p", .num 7)] []).1 = some ⟨3, 3, false⟩ ∧
    cacheGet (handlePropertiesChanged 5 0 ⟨"p", "uint8"⟩ [(3, .num 7)]
        ⟨none, 0, 0⟩ [("p", .num 7)] []).2 5 0 = some 3 ∧
    cacheGet ([] : SensorCache) 5 0 = none := by
  decide

/-- Claim C4 amended: for every bus signal handled, the cache entry for
(sensor id, offset) is updated to the reported previous state whenever the
signal matches a value-map entry — regardless of whether the
PlatformEventMessage was successfully emitted (instance-id exhaustion,
encode failure and registration failure included); on an unmatched signal
the cache is unchanged. -/
theorem sensorCache_updated_on_every_match
    (sensorId offset : Nat) (dbusMapping : DbusMapping)
    (dbusValueMapping : List (Nat × PropVal)) (env : SendEnv)
    (props : List (String × PropVal)) (cache : SensorCache) :
    (∀ r, (handlePropertiesChanged sensorId offset dbusMapping
        dbusValueMapping env props cache).1 = some r →
      cacheGet (handlePropertiesChanged sensorId offset dbusMapping
          dbusValueMapping env props cache).2 sensorId offset =
        some r.previousState) ∧
    ((handlePropertiesChanged sensorId offset dbusMapping dbusValueMapping
        env props cache).1 = none →
      (handlePropertiesChanged sensorId offset dbusMapping dbusValueMapping
          env props cache).2 = cache) := by
  have h := handlePropertiesChanged_cases sensorId offset dbusMapping
    dbusValueMapping env props cache
  refine ⟨fun r hr => ?_, h.2⟩
  rw [(h.1 r hr).1, cacheGet_updateSensorCacheMaps]
  simp

/-- Witness for the amended claim C4: the matched-but-unemitted signal of
the counterexample input indeed stores previous state 3. -/
theorem sensorCache_updated_on_every_match_witness :
    cacheGet (handlePropertiesChanged 5 0 ⟨"p", "uint8"⟩ [(3, .num 7)]
        ⟨none, 0, 0⟩ [("p", .num 7)] []).2 5 0 = some 3 := by
  have h := sensorCache_updated_on_every_match 5 0 ⟨"p", "uint8"⟩
    [(3, .num 7)] ⟨none, 0, 0⟩ [("p", .num 7)] []
  exact h.1 ⟨3, 3, false⟩ (by decide)

end PldmModel
